import Mathlib

/-!
Shallow embedding of the RAG-Agent backend (src/backend/llm.py and
src/backend/main.py) and proofs about the claims of its specification.

Python strings are modelled as Lean `String`; Python exceptions as
`Except`; the external Gemini / embedding / loader backends as explicit
function parameters collected in a `Backend` record, so that every
execution path of the orchestration code is a total Lean function.
-/

namespace RAG

/-- Python `str.lower()` (ASCII-level model). -/
def py_lower (s : String) : String :=
  String.mk (s.data.map Char.toLower)

/-- Python `str.strip()`: drop leading and trailing whitespace. -/
def py_strip (s : String) : String :=
  String.mk (((s.data.dropWhile Char.isWhitespace).reverse.dropWhile
    Char.isWhitespace).reverse)

/-- Predicate pref_of n h tests whether the list `n` is a prefix of `h`. -/
def pref_of : List Char → List Char → Bool
  | [], _ => true
  | _ :: _, [] => false
  | a :: as, b :: bs => a == b && pref_of as bs

/-- Predicate sub_of n h tests whether `n` occurs as a contiguous sublist of `h`. -/
def sub_of : List Char → List Char → Bool
  | n, [] => n.isEmpty
  | n, c :: hs => pref_of n (c :: hs) || sub_of n hs

/-- Python `needle in haystack` on strings (substring containment). -/
def py_in (needle haystack : String) : Bool :=
  sub_of needle.data haystack.data

/-- Python `s.startswith(p)`. -/
def py_startswith (p s : String) : Bool :=
  pref_of p.data s.data

/-- Model of langchain.schema.Document: page content plus its `source` metadata. -/
structure Document where
  page_content : String
  source : String
  deriving DecidableEq, Repr

/-- The external collaborators of llm.py, as explicit fallible calls.
A `RetrievalQA` chain is represented by the exact document list
`build_qa_chain` was called with; `build_qa_chain` here models only the
success or failure of the chunk/embed/index step. -/
structure Backend where
  load_pdf : String → Except String (List Document)
  load_image : String → Except String (List Document)
  load_url : String → Except String (List Document)
  build_qa_chain : List Document → Except String Unit
  google_search : String → Except String String
  llm_invoke : String → Except String String

/-- Function load_text (llm.py): wrap literal text as one Document with source
`"text_input"`. -/
def load_text (text : String) : List Document :=
  [{ page_content := text, source := "text_input" }]

/-- Function load_from_type (llm.py): dispatch on the `input_type` string. -/
def load_from_type (B : Backend) (input_type value : String) :
    Except String (List Document) :=
  if input_type = "pdf" then B.load_pdf value
  else if input_type = "image" then B.load_image value
  else if input_type = "url" then B.load_url value
  else if input_type = "text" then Except.ok (load_text value)
  else Except.error ("Unsupported input type: " ++ input_type)

/-- The `combined_text` accumulation in `generate_summary` /
`generate_preview`: each document's content followed by a blank line. -/
def combined_text : List Document → String
  | [] => ""
  | d :: ds => d.page_content ++ "\n\n" ++ combined_text ds

/-- The prompt-template selection in `generate_summary`. -/
def summary_prompt (input_type : String) : String :=
  if input_type = "image" then
    "Provide a brief 2-3 sentence summary of the text extracted from this image:"
  else if input_type = "pdf" then
    "Provide a brief 2-3 sentence summary of this PDF document:"
  else if input_type = "url" then
    "Provide a brief 2-3 sentence summary of this webpage content:"
  else if input_type = "mixed" then
    "Provide a brief 2-3 sentence summary of this combined content from multiple sources:"
  else
    "Provide a brief 2-3 sentence summary of this text:"

/-- Function generate_summary (llm.py).  The surrounding `try/except` is modelled
at the only fallible call, `llm.invoke`: a failure is caught and reported
as a `"Could not generate summary: ..."` string, never re-raised. -/
def generate_summary (llm : String → Except String String)
    (documents : List Document) (input_type : String) : String :=
  let combined := combined_text documents
  if (py_strip combined).length < 100 then py_strip combined
  else
    let full_prompt :=
      summary_prompt input_type ++ "\n\n" ++ String.mk (combined.data.take 2000) ++ "..."
    match llm full_prompt with
    | Except.ok content => content
    | Except.error e => "Could not generate summary: " ++ e

/-- The dictionary `generate_preview` returns. -/
structure Preview where
  source : String
  text_preview : String
  character_count : Nat
  document_count : Nat
  deriving DecidableEq, Repr

/-- Function generate_preview (llm.py): purely local string work, no LLM call. -/
def generate_preview (documents : List Document)
    (source_description : String) : Preview :=
  let stripped := py_strip (combined_text documents)
  { source := source_description
    text_preview :=
      if 300 < stripped.length then String.mk (stripped.data.take 300) ++ "..."
      else String.mk (stripped.data.take 300)
    character_count := stripped.length
    document_count := documents.length }

/-- The fixed search prompt built by `search_web_with_google`. -/
def web_search_prompt (query : String) : String :=
  "Search the web for: " ++ query ++
    ". Provide a concise answer based on the search results."

/-- Function search_web_with_google (llm.py): on failure, classify the error
message into the `"quota_exceeded"` sentinel or a `"search_error: "`
prefixed message; on success return the answer text. -/
def search_web_with_google (B : Backend) (query : String) : String :=
  match B.google_search (web_search_prompt query) with
  | Except.ok text => text
  | Except.error e =>
      if py_in "429" e && py_in "RESOURCE_EXHAUSTED" e then "quota_exceeded"
      else if py_in "quota" (py_lower e) || py_in "limit" (py_lower e) then
        "quota_exceeded"
      else "search_error: " ++ e

/-- Function answer_with_gemini (llm.py): direct LLM answer, failure caught. -/
def answer_with_gemini (llm : String → Except String String)
    (query : String) : String :=
  match llm query with
  | Except.ok content => content
  | Except.error e => "Gemini search failed: " ++ e

/-- An apostrophe (U+0027), used inside four of the hedge phrases. -/
def apos : String := String.mk [Char.ofNat 39]

/-- The fixed hedge-phrase list of `is_answer_not_found` (llm.py). -/
def not_found_phrases : List String :=
  ["does not provide",
   "does not give",
   "does not contain",
   "does not mention",
   "not found in",
   "no information",
   "cannot find",
   "doesn" ++ apos ++ "t provide",
   "doesn" ++ apos ++ "t give",
   "doesn" ++ apos ++ "t contain",
   "doesn" ++ apos ++ "t mention",
   "cannot be answered",
   "not available",
   "not provided",
   "from the given",
   "given context",
   "given text",
   "provided text",
   "available in the",
   "insufficient information"]

/-- Function is_answer_not_found (llm.py): case-insensitive substring match of
the response against the fixed hedge-phrase list. -/
def is_answer_not_found (response_text : String) : Bool :=
  not_found_phrases.any (fun phrase => py_in phrase (py_lower response_text))

/-! main.py: the three module-level session dictionaries and the HTTP
endpoint handlers.  A Python dict is modelled extensionally as a
`String → Option _` map; endpoint results are `Except Nat _`, carrying the
HTTP status code on failure. -/

/-- The module-level session state of main.py.  The `RetrievalQA` chain
stored in `qa_chains` is represented by the document list it was built
from. -/
structure ServerState where
  qa_chains : String → Option (List Document)
  document_summaries : String → Option String
  session_documents : String → Option (List Document)

/-- Python `d[k] = v` on a dict. -/
def upd {α : Type} (m : String → Option α) (k : String) (v : α) :
    String → Option α :=
  fun s => if s = k then some v else m s

/-- Python `if k in d: del d[k]` on a dict. -/
def rm {α : Type} (m : String → Option α) (k : String) :
    String → Option α :=
  fun s => if s = k then none else m s

/-- The state with no sessions. -/
def empty_state : ServerState :=
  { qa_chains := fun _ => none
    document_summaries := fun _ => none
    session_documents := fun _ => none }

/-- The ALLOWED_EXTENSIONS set (main.py). -/
def ALLOWED_EXTENSIONS : List String :=
  ["pdf", "png", "jpg", "jpeg", "gif", "bmp", "tiff"]

/-- Python `filename.rsplit(".", 1)[1]` for a filename containing a dot:
the text after the last dot. -/
def after_last_dot (filename : String) : String :=
  String.mk ((filename.data.reverse.takeWhile (fun c => c != '.')).reverse)

/-- The lowercased extension used by `allowed_file` and `upload_file`. -/
def file_ext (filename : String) : String :=
  py_lower (after_last_dot filename)

/-- Function allowed_file (main.py). -/
def allowed_file (filename : String) : Bool :=
  filename.data.contains '.' && ALLOWED_EXTENSIONS.contains (file_ext filename)

/-- Success payload of /api/upload and /api/upload-json. -/
structure UploadResponse where
  session_id : String
  summary : String
  content_type : String
  deriving DecidableEq, Repr

/-- The `added_content` object of the add-context endpoints. -/
structure AddedContent where
  type : String
  name : String
  preview : Preview
  deriving DecidableEq, Repr

/-- Success payload of /api/add-context and /api/add-context-json. -/
structure AddContextResponse where
  summary : String
  added_content : AddedContent
  deriving DecidableEq, Repr

/-- The shared tail of both upload endpoints (main.py): build the chain
from the loaded documents, generate the summary, and only then store all
three session entries — nothing is stored when loading or building
fails. -/
def upload_store (B : Backend) (st : ServerState) (session_id : String)
    (loaded : Except String (List Document)) (input_type : String) :
    ServerState × Except Nat UploadResponse :=
  match loaded with
  | Except.error _ => (st, Except.error 500)
  | Except.ok docs =>
      match B.build_qa_chain docs with
      | Except.error _ => (st, Except.error 500)
      | Except.ok _ =>
          let summary := generate_summary B.llm_invoke docs input_type
          ({ qa_chains := upd st.qa_chains session_id docs
             document_summaries := upd st.document_summaries session_id summary
             session_documents := upd st.session_documents session_id docs },
           Except.ok { session_id := session_id, summary := summary,
                       content_type := input_type })

/-- Function upload_file (main.py, POST /api/upload).  File-system writes and the
later `os.remove` have no observable effect on the session state and are
omitted; the temporary file path handed to the loader is kept. -/
def upload_file (B : Backend) (st : ServerState)
    (session_id filename : String) :
    ServerState × Except Nat UploadResponse :=
  if filename = "" then (st, Except.error 400)
  else if allowed_file filename = false then (st, Except.error 400)
  else
    let filepath := session_id ++ "_" ++ filename
    let input_type := if file_ext filename = "pdf" then "pdf" else "image"
    upload_store B st session_id (load_from_type B input_type filepath) input_type

/-- Function upload_content (main.py, POST /api/upload-json). -/
def upload_content (B : Backend) (st : ServerState) (session_id : String)
    (url text : Option String) :
    ServerState × Except Nat UploadResponse :=
  if url.getD "" = "" ∧ text.getD "" = "" then (st, Except.error 400)
  else if url.getD "" ≠ "" then
    upload_store B st session_id (load_from_type B "url" (url.getD "")) "url"
  else
    upload_store B st session_id (load_from_type B "text" (text.getD "")) "text"

/-- The shared tail of both add-context endpoints (main.py): generate the
preview of the new documents, append them in place to
`session_documents[session_id]`, then rebuild the chain and regenerate
the summary from the full accumulated list.  The in-place `extend`
happens before the rebuild, so a rebuild failure leaves the extended
document list behind with the old chain. -/
def add_context_docs (B : Backend) (st : ServerState) (session_id : String)
    (old_docs : List Document) (loaded : Except String (List Document))
    (preview_label content_type content_name : String) :
    ServerState × Except Nat AddContextResponse :=
  match loaded with
  | Except.error _ => (st, Except.error 500)
  | Except.ok new_docs =>
      let preview := generate_preview new_docs preview_label
      let all_docs := old_docs ++ new_docs
      let st1 :=
        { st with session_documents := upd st.session_documents session_id all_docs }
      match B.build_qa_chain all_docs with
      | Except.error _ => (st1, Except.error 500)
      | Except.ok _ =>
          let summary := generate_summary B.llm_invoke all_docs "mixed"
          ({ st1 with
              qa_chains := upd st.qa_chains session_id all_docs
              document_summaries := upd st.document_summaries session_id summary },
           Except.ok { summary := summary,
                       added_content := { type := content_type, name := content_name,
                                          preview := preview } })

/-- Function add_context_file (main.py, POST /api/add-context). -/
def add_context_file (B : Backend) (st : ServerState)
    (session_id filename : String) :
    ServerState × Except Nat AddContextResponse :=
  if session_id = "" then (st, Except.error 404)
  else
    match st.session_documents session_id with
    | none => (st, Except.error 404)
    | some old_docs =>
        if filename = "" then (st, Except.error 400)
        else if allowed_file filename = false then (st, Except.error 400)
        else
          let filepath := session_id ++ "_" ++ filename
          let input_type := if file_ext filename = "pdf" then "pdf" else "image"
          add_context_docs B st session_id old_docs
            (load_from_type B input_type filepath)
            (input_type ++ " file: " ++ filename) input_type filename

/-- Function add_context_json (main.py, POST /api/add-context-json). -/
def add_context_json (B : Backend) (st : ServerState) (session_id : String)
    (url text : Option String) :
    ServerState × Except Nat AddContextResponse :=
  if session_id = "" then (st, Except.error 404)
  else
    match st.session_documents session_id with
    | none => (st, Except.error 404)
    | some old_docs =>
        if url.getD "" = "" ∧ text.getD "" = "" then (st, Except.error 400)
        else if url.getD "" ≠ "" then
          add_context_docs B st session_id old_docs
            (load_from_type B "url" (url.getD ""))
            ("URL: " ++ url.getD "") "url" (url.getD "")
        else
          add_context_docs B st session_id old_docs
            (load_from_type B "text" (text.getD ""))
            "Text content" "text" "Custom text"

/-- Success payload of the GET session-info route. -/
structure SessionInfo where
  session_id : String
  document_count : Nat
  total_characters : Nat
  summary : String
  has_qa_chain : Bool
  deriving DecidableEq, Repr

/-- Function get_session_info (main.py, GET the session info route). -/
def get_session_info (st : ServerState) (session_id : String) :
    Except Nat SessionInfo :=
  match st.session_documents session_id with
  | none => Except.error 404
  | some docs =>
      Except.ok
        { session_id := session_id
          document_count := docs.length
          total_characters := (docs.map (fun d => d.page_content.length)).sum
          summary := (st.document_summaries session_id).getD "No summary available"
          has_qa_chain := (st.qa_chains session_id).isSome }

/-- Function delete_session (main.py, DELETE the session route). -/
def delete_session (st : ServerState) (session_id : String) :
    ServerState × Except Nat String :=
  match st.session_documents session_id with
  | none => (st, Except.error 404)
  | some _ =>
      ({ qa_chains := rm st.qa_chains session_id
         document_summaries := rm st.document_summaries session_id
         session_documents := rm st.session_documents session_id },
       Except.ok ("Session " ++ session_id ++ " deleted successfully"))

/-- One entry of GET /api/sessions. -/
structure SessionEntry where
  session_id : String
  document_count : Nat
  has_summary : Bool
  deriving DecidableEq, Repr

/-- The per-key view of the `list_sessions` loop (main.py,
GET /api/sessions): the entry emitted for `session_id` when it is a key
of `session_documents`, `none` otherwise. -/
def list_entry (st : ServerState) (session_id : String) :
    Option SessionEntry :=
  (st.session_documents session_id).map (fun docs =>
    { session_id := session_id
      document_count := docs.length
      has_summary := (st.document_summaries session_id).isSome })

/-- Answer source of POST /api/search-web. -/
inductive SearchSource where
  | google_search
  | gemini_fallback
  deriving DecidableEq, Repr

/-- Success payload of POST /api/search-web. -/
structure SearchResponse where
  answer : String
  source : SearchSource
  deriving DecidableEq, Repr

/-- Function search_web (main.py, POST /api/search-web). -/
def search_web (B : Backend) (question : String) :
    Except Nat SearchResponse :=
  if question = "" then Except.error 400
  else
    let google_result := search_web_with_google B question
    if google_result = "quota_exceeded" then
      Except.ok { answer := answer_with_gemini B.llm_invoke question
                  source := SearchSource.gemini_fallback }
    else if py_startswith "search_error:" google_result then
      Except.ok { answer := answer_with_gemini B.llm_invoke question
                  source := SearchSource.gemini_fallback }
    else
      Except.ok { answer := google_result, source := SearchSource.google_search }

/-! Invariants and concrete fixtures used by the claim theorems. -/

/-- C2 invariant: for every session id, the stored chain exists exactly
when the session exists and was built from exactly the session's current
document list. -/
def index_fresh (st : ServerState) : Prop :=
  ∀ sid, st.qa_chains sid = st.session_documents sid

/-- C10 invariant: the three session dictionaries hold the same key set. -/
def domains_eq (st : ServerState) : Prop :=
  ∀ sid,
    (st.qa_chains sid).isSome = (st.session_documents sid).isSome ∧
    (st.document_summaries sid).isSome = (st.session_documents sid).isSome

/-- A sample document. -/
def d0 : Document := { page_content := "alpha", source := "text_input" }

/-- A document long enough to be past the verbatim-summary threshold. -/
def d_long : Document :=
  { page_content := String.mk (List.replicate 120 'a'), source := "text_input" }

/-- A state holding the single session `"s"`. -/
def st0 : ServerState :=
  { qa_chains := fun s => if s = "s" then some [d0] else none
    document_summaries := fun s => if s = "s" then some "alpha" else none
    session_documents := fun s => if s = "s" then some [d0] else none }

/-- A backend whose every external call fails. -/
def stub_backend : Backend :=
  { load_pdf := fun _ => Except.error "stub"
    load_image := fun _ => Except.error "stub"
    load_url := fun _ => Except.error "stub"
    build_qa_chain := fun _ => Except.error "stub"
    google_search := fun _ => Except.error "stub"
    llm_invoke := fun _ => Except.error "stub" }

/-- A backend whose every external call succeeds. -/
def ok_backend : Backend :=
  { load_pdf := fun p => Except.ok [{ page_content := "pdf page", source := p }]
    load_image := fun p => Except.ok [{ page_content := "image text", source := p }]
    load_url := fun u => Except.ok [{ page_content := "page text", source := u }]
    build_qa_chain := fun _ => Except.ok ()
    google_search := fun _ => Except.ok "web answer"
    llm_invoke := fun _ => Except.ok "llm answer" }

/-- A backend whose loaders work but whose chunk/embed/index step fails. -/
def fail_build_backend : Backend :=
  { ok_backend with build_qa_chain := fun _ => Except.error "embedding failure" }

/-- A backend whose web search fails with a quota error. -/
def quota_backend : Backend :=
  { ok_backend with
      google_search := fun _ => Except.error "429 RESOURCE_EXHAUSTED rate" }

/-- A backend whose web search succeeds with an answer text that happens
to equal the quota sentinel. -/
def sentinel_backend : Backend :=
  { ok_backend with google_search := fun _ => Except.ok "quota_exceeded" }

/-! Helper lemmas about the string primitives. -/

theorem pref_of_iff : ∀ n h : List Char, pref_of n h = true ↔ n <+: h
  | [], h => by simp [pref_of, List.nil_prefix]
  | _ :: _, [] => by simp [pref_of]
  | a :: as, b :: bs => by
      simp [pref_of, List.cons_prefix_cons, pref_of_iff as bs]

theorem sub_of_iff : ∀ n h : List Char, sub_of n h = true ↔ n <:+: h
  | n, [] => by simp [sub_of, List.infix_nil, List.isEmpty_iff]
  | n, c :: hs => by
      simp [sub_of, List.infix_cons_iff, pref_of_iff, sub_of_iff n hs]

theorem py_in_iff (needle hay : String) :
    py_in needle hay = true ↔ needle.data <:+: hay.data :=
  sub_of_iff _ _

theorem py_lower_data (s : String) :
    (py_lower s).data = s.data.map Char.toLower := rfl

/-- C1: `is_answer_not_found text` is true if and only if the lowercased
text contains one of the fixed hedge phrases as a substring; in
particular it is true whenever a phrase of the list is embedded, in any
letter case, in arbitrary surrounding text, and false for any text whose
lowercasing contains none of the phrases. -/
theorem c1_is_answer_not_found_iff :
    (∀ t : String,
      is_answer_not_found t = true ↔
        ∃ p ∈ not_found_phrases, p.data <:+: t.data.map Char.toLower) ∧
    (∀ pre mid suf p : String, p ∈ not_found_phrases →
      mid.data.map Char.toLower = p.data →
      is_answer_not_found (pre ++ mid ++ suf) = true) := by
  have key : ∀ t : String,
      is_answer_not_found t = true ↔
        ∃ p ∈ not_found_phrases, p.data <:+: t.data.map Char.toLower := by
    intro t
    simp [is_answer_not_found, List.any_eq_true, py_in_iff, py_lower_data]
  refine ⟨key, ?_⟩
  intro pre mid suf p hp hmid
  rw [key]
  refine ⟨p, hp, ?_⟩
  rw [String.data_append, String.data_append, List.map_append, List.map_append,
    hmid]
  exact List.infix_append _ _ _

/-- Witness for C1 at the spec's own example: a phrase embedded with
different letter case in surrounding text is detected. -/
theorem c1_witness :
    ("does not contain" ∈ not_found_phrases) ∧
    is_answer_not_found ("The document " ++ "does NOT CONTAIN" ++ " pricing info") = true :=
  ⟨by decide,
   c1_is_answer_not_found_iff.2 "The document " "does NOT CONTAIN" " pricing info"
     "does not contain" (by decide) (by decide)⟩

/-- C4: when the stripped concatenated content is under 100 characters,
`generate_summary` returns it verbatim, for every LLM backend — in
particular for a stub that fails when invoked — so no LLM call is made. -/
theorem c4_short_summary_verbatim (documents : List Document)
    (input_type : String) (llm : String → Except String String)
    (h : (py_strip (combined_text documents)).length < 100) :
    generate_summary llm documents input_type =
      py_strip (combined_text documents) := by
  simp only [generate_summary]
  rw [if_pos h]

/-- Witness for C4 on a short document and a failing stub backend. -/
theorem c4_witness :
    ((py_strip (combined_text [d0])).length < 100) ∧
    generate_summary (fun _ => Except.error "stub") [d0] "text" =
      py_strip (combined_text [d0]) :=
  ⟨by decide,
   c4_short_summary_verbatim [d0] "text" (fun _ => Except.error "stub") (by decide)⟩

/-- C7: `load_from_type` fails with an error naming the unsupported type
for every `input_type` outside pdf/image/url/text — independently of the
loaders, so none is called — and dispatches each supported value to its
loader, the `"text"` kind yielding exactly one document that wraps the
literal input with source `"text_input"`. -/
theorem c7_load_from_type_dispatch (B : Backend) (value : String) :
    (∀ input_type : String,
        input_type ∉ (["pdf", "image", "url", "text"] : List String) →
        load_from_type B input_type value =
          Except.error ("Unsupported input type: " ++ input_type)) ∧
    load_from_type B "pdf" value = B.load_pdf value ∧
    load_from_type B "image" value = B.load_image value ∧
    load_from_type B "url" value = B.load_url value ∧
    load_from_type B "text" value =
      Except.ok [{ page_content := value, source := "text_input" }] := by
  refine ⟨?_, rfl, rfl, rfl, rfl⟩
  intro it hit
  simp only [List.mem_cons, List.not_mem_nil, or_false, not_or] at hit
  obtain ⟨h1, h2, h3, h4⟩ := hit
  simp [load_from_type, h1, h2, h3, h4]

/-- Witness for C7 at the spec's example of an unsupported type. -/
theorem c7_witness :
    (("csv" : String) ∉ (["pdf", "image", "url", "text"] : List String)) ∧
    load_from_type stub_backend "csv" "input.csv" =
      Except.error ("Unsupported input type: " ++ "csv") :=
  ⟨by decide,
   (c7_load_from_type_dispatch stub_backend "input.csv").1 "csv" (by decide)⟩

/-- C9: `generate_summary` and `generate_preview` are total: with a
failing LLM backend the summary is the error-describing string (or the
verbatim short content, which needs no LLM call), and the preview is
always the success-shaped record computed locally. -/
theorem c9_summary_preview_never_raise (documents : List Document)
    (input_type label e : String) :
    (100 ≤ (py_strip (combined_text documents)).length →
      generate_summary (fun _ => Except.error e) documents input_type =
        "Could not generate summary: " ++ e) ∧
    ((py_strip (combined_text documents)).length < 100 →
      generate_summary (fun _ => Except.error e) documents input_type =
        py_strip (combined_text documents)) ∧
    generate_preview documents label =
      { source := label
        text_preview :=
          if 300 < (py_strip (combined_text documents)).length then
            String.mk ((py_strip (combined_text documents)).data.take 300) ++ "..."
          else String.mk ((py_strip (combined_text documents)).data.take 300)
        character_count := (py_strip (combined_text documents)).length
        document_count := documents.length } := by
  refine ⟨?_, ?_, rfl⟩
  · intro h
    simp only [generate_summary]
    rw [if_neg (Nat.not_lt.mpr h)]
  · intro h
    simp only [generate_summary]
    rw [if_pos h]

/-- Witness for C9: a failing LLM backend yields the error-describing
summary string instead of an exception. -/
theorem c9_witness :
    (100 ≤ (py_strip (combined_text [d_long])).length) ∧
    generate_summary (fun _ => Except.error "llm down") [d_long] "pdf" =
      "Could not generate summary: " ++ "llm down" :=
  ⟨by decide,
   (c9_summary_preview_never_raise [d_long] "pdf" "label" "llm down").1 (by decide)⟩

/-- Counterexample to C5 as stated: the search backend succeeds, yet
because its answer text happens to equal the in-band sentinel
`"quota_exceeded"`, /api/search-web routes this non-failure result to the
Gemini fallback instead of reporting it with source `google_search`. -/
theorem c5_counterexample :
    sentinel_backend.google_search (web_search_prompt "q") =
      Except.ok "quota_exceeded" ∧
    search_web sentinel_backend "q" =
      Except.ok { answer := "llm answer", source := SearchSource.gemini_fallback } :=
  ⟨rfl, rfl⟩

/-- C5 (amended): `search_web_with_google` classifies every backend
failure — the quota/rate-limit test of the code yields the
`"quota_exceeded"` sentinel, any other error the `"search_error: "`
prefixed message — and returns the answer text on success; /api/search-web
maps every backend failure to a success response sourced
`gemini_fallback`, and maps a backend success to source `google_search`
provided its text is not itself the sentinel and does not start with
`"search_error:"`. -/
theorem c5_amended_search_classification (B : Backend) (question : String)
    (hq : question ≠ "") :
    (∀ e, B.google_search (web_search_prompt question) = Except.error e →
      search_web_with_google B question =
        (if (py_in "429" e && py_in "RESOURCE_EXHAUSTED" e)
            || (py_in "quota" (py_lower e) || py_in "limit" (py_lower e))
         then "quota_exceeded" else "search_error: " ++ e)) ∧
    (∀ t, B.google_search (web_search_prompt question) = Except.ok t →
      search_web_with_google B question = t) ∧
    (∀ e, B.google_search (web_search_prompt question) = Except.error e →
      search_web B question =
        Except.ok { answer := answer_with_gemini B.llm_invoke question
                    source := SearchSource.gemini_fallback }) ∧
    (∀ t, B.google_search (web_search_prompt question) = Except.ok t →
      t ≠ "quota_exceeded" → py_startswith "search_error:" t = false →
      search_web B question =
        Except.ok { answer := t, source := SearchSource.google_search }) := by
  have hclass : ∀ e, B.google_search (web_search_prompt question) = Except.error e →
      search_web_with_google B question =
        (if (py_in "429" e && py_in "RESOURCE_EXHAUSTED" e)
            || (py_in "quota" (py_lower e) || py_in "limit" (py_lower e))
         then "quota_exceeded" else "search_error: " ++ e) := by
    intro e he
    simp only [search_web_with_google, he]
    cases hc1 : py_in "429" e && py_in "RESOURCE_EXHAUSTED" e <;>
      cases hc2 : py_in "quota" (py_lower e) || py_in "limit" (py_lower e) <;>
      simp [hc1, hc2]
  have hok : ∀ t, B.google_search (web_search_prompt question) = Except.ok t →
      search_web_with_google B question = t := by
    intro t ht
    simp only [search_web_with_google, ht]
  refine ⟨hclass, hok, ?_, ?_⟩
  · intro e he
    have hc := hclass e he
    simp only [search_web]
    rw [if_neg hq]
    by_cases hcond : ((py_in "429" e && py_in "RESOURCE_EXHAUSTED" e)
        || (py_in "quota" (py_lower e) || py_in "limit" (py_lower e))) = true
    · rw [hc, if_pos hcond, if_pos rfl]
    · rw [hc, if_neg hcond]
      have hne : ("search_error: " ++ e) ≠ "quota_exceeded" := by
        intro h
        have h2 : ("search_error: " ++ e).data.head? =
            ("quota_exceeded" : String).data.head? :=
          congrArg (fun s => s.data.head?) h
        rw [String.data_append] at h2
        have h3 : ("search_error: ".data ++ e.data).head? = some 's' := rfl
        rw [h3] at h2
        exact absurd h2 (by decide)
      have hpre : py_startswith "search_error:" ("search_error: " ++ e) = true := by
        unfold py_startswith
        rw [pref_of_iff, String.data_append]
        exact ((pref_of_iff _ _).1 (by decide)).trans (List.prefix_append _ _)
      rw [if_neg hne, if_pos hpre]
  · intro t ht hne hns
    simp only [search_web]
    rw [if_neg hq, hok t ht, if_neg hne, if_neg ?_]
    rw [hns]
    exact Bool.false_ne_true

/-- Witness for C5 (amended): a quota failure of the search backend is
mapped to a success response sourced `gemini_fallback`. -/
theorem c5_witness :
    search_web quota_backend "q" =
      Except.ok { answer := answer_with_gemini quota_backend.llm_invoke "q"
                  source := SearchSource.gemini_fallback } :=
  (c5_amended_search_classification quota_backend "q" (by decide)).2.2.1
    "429 RESOURCE_EXHAUSTED rate" rfl

/-- Counterexample to C3 as stated: deleting an identifier that was never
created fails with 404 instead of succeeding, and so does deleting the
same identifier a second time. -/
theorem c3_counterexample :
    (delete_session empty_state "missing").2 = Except.error 404 ∧
    (delete_session (delete_session st0 "s").1 "s").2 = Except.error 404 :=
  ⟨rfl, rfl⟩

/-- C3 (amended): deleting an existing session removes its entries from
all three session maps and reports success; deleting an absent — in
particular an already-deleted or never-created — identifier fails with
404, so deletion is not idempotent. -/
theorem c3_amended_delete (st : ServerState) (session_id : String) :
    (∀ docs, st.session_documents session_id = some docs →
      delete_session st session_id =
        ({ qa_chains := rm st.qa_chains session_id
           document_summaries := rm st.document_summaries session_id
           session_documents := rm st.session_documents session_id },
         Except.ok ("Session " ++ session_id ++ " deleted successfully"))) ∧
    (st.session_documents session_id = none →
      delete_session st session_id = (st, Except.error 404)) := by
  constructor
  · intro docs h
    simp [delete_session, h]
  · intro h
    simp [delete_session, h]

/-- Witness for C3 (amended): the two branches at concrete inputs. -/
theorem c3_witness :
    delete_session st0 "s" =
      ({ qa_chains := rm st0.qa_chains "s"
         document_summaries := rm st0.document_summaries "s"
         session_documents := rm st0.session_documents "s" },
       Except.ok ("Session " ++ "s" ++ " deleted successfully")) ∧
    delete_session empty_state "missing" = (empty_state, Except.error 404) :=
  ⟨(c3_amended_delete st0 "s").1 [d0] rfl,
   (c3_amended_delete empty_state "missing").2 rfl⟩

/-! Shape lemmas: exhaustive descriptions of the states an endpoint can
leave behind, used by the invariant claims. -/

theorem add_context_docs_eq_err_load (B : Backend) (st : ServerState)
    (sid : String) (old : List Document) (e lbl ct cn : String) :
    add_context_docs B st sid old (Except.error e) lbl ct cn =
      (st, Except.error 500) := rfl

theorem add_context_docs_eq_err_build (B : Backend) (st : ServerState)
    (sid : String) (old new : List Document) (lbl ct cn eb : String)
    (hb : B.build_qa_chain (old ++ new) = Except.error eb) :
    add_context_docs B st sid old (Except.ok new) lbl ct cn =
      ({ st with session_documents := upd st.session_documents sid (old ++ new) },
       Except.error 500) := by
  simp [add_context_docs, hb]

theorem add_context_docs_eq_ok (B : Backend) (st : ServerState)
    (sid : String) (old new : List Document) (lbl ct cn : String)
    (hb : B.build_qa_chain (old ++ new) = Except.ok ()) :
    add_context_docs B st sid old (Except.ok new) lbl ct cn =
      ({ qa_chains := upd st.qa_chains sid (old ++ new)
         document_summaries := upd st.document_summaries sid
           (generate_summary B.llm_invoke (old ++ new) "mixed")
         session_documents := upd st.session_documents sid (old ++ new) },
       Except.ok { summary := generate_summary B.llm_invoke (old ++ new) "mixed"
                   added_content := { type := ct, name := cn,
                                      preview := generate_preview new lbl } }) := by
  simp [add_context_docs, hb]

theorem add_context_docs_cases (B : Backend) (st : ServerState) (sid : String)
    (old : List Document) (loaded : Except String (List Document))
    (lbl ct cn : String) (st' : ServerState)
    (out : Except Nat AddContextResponse)
    (h : add_context_docs B st sid old loaded lbl ct cn = (st', out)) :
    (st' = st ∧ out = Except.error 500) ∨
    (∃ new, loaded = Except.ok new ∧
      st' = { st with
                session_documents := upd st.session_documents sid (old ++ new) } ∧
      out = Except.error 500) ∨
    (∃ new, loaded = Except.ok new ∧
      st' = { qa_chains := upd st.qa_chains sid (old ++ new)
              document_summaries := upd st.document_summaries sid
                (generate_summary B.llm_invoke (old ++ new) "mixed")
              session_documents := upd st.session_documents sid (old ++ new) } ∧
      out = Except.ok
        { summary := generate_summary B.llm_invoke (old ++ new) "mixed"
          added_content := { type := ct, name := cn,
                             preview := generate_preview new lbl } }) := by
  cases loaded with
  | error e =>
      rw [add_context_docs_eq_err_load] at h
      injection h with h1 h2
      exact Or.inl ⟨h1.symm, h2.symm⟩
  | ok new =>
      cases hb : B.build_qa_chain (old ++ new) with
      | error eb =>
          rw [add_context_docs_eq_err_build B st sid old new lbl ct cn eb hb] at h
          injection h with h1 h2
          exact Or.inr (Or.inl ⟨new, rfl, h1.symm, h2.symm⟩)
      | ok u =>
          cases u
          rw [add_context_docs_eq_ok B st sid old new lbl ct cn hb] at h
          injection h with h1 h2
          exact Or.inr (Or.inr ⟨new, rfl, h1.symm, h2.symm⟩)

theorem add_context_json_cases (B : Backend) (st : ServerState)
    (session_id : String) (url text : Option String) (st' : ServerState)
    (out : Except Nat AddContextResponse)
    (h : add_context_json B st session_id url text = (st', out)) :
    (st' = st ∧ ∃ c, out = Except.error c) ∨
    (∃ old new, st.session_documents session_id = some old ∧
      ((st' = { st with
                  session_documents :=
                    upd st.session_documents session_id (old ++ new) } ∧
        out = Except.error 500) ∨
       (st' = { qa_chains := upd st.qa_chains session_id (old ++ new)
                document_summaries := upd st.document_summaries session_id
                  (generate_summary B.llm_invoke (old ++ new) "mixed")
                session_documents :=
                  upd st.session_documents session_id (old ++ new) } ∧
        ∃ r, out = Except.ok r ∧
          r.summary = generate_summary B.llm_invoke (old ++ new) "mixed"))) := by
  simp only [add_context_json] at h
  by_cases hs : session_id = ""
  · rw [if_pos hs] at h
    injection h with h1 h2
    exact Or.inl ⟨h1.symm, 404, h2.symm⟩
  · rw [if_neg hs] at h
    cases hsd : st.session_documents session_id with
    | none =>
        simp only [hsd] at h
        injection h with h1 h2
        exact Or.inl ⟨h1.symm, 404, h2.symm⟩
    | some old =>
        simp only [hsd] at h
        by_cases h0 : url.getD "" = "" ∧ text.getD "" = ""
        · rw [if_pos h0] at h
          injection h with h1 h2
          exact Or.inl ⟨h1.symm, 400, h2.symm⟩
        · rw [if_neg h0] at h
          by_cases hu : url.getD "" ≠ ""
          · rw [if_pos hu] at h
            rcases add_context_docs_cases _ _ _ _ _ _ _ _ _ _ h with
              h1 | ⟨new, _, hst, hout⟩ | ⟨new, _, hst, hout⟩
            · exact Or.inl ⟨h1.1, 500, h1.2⟩
            · exact Or.inr ⟨old, new, rfl, Or.inl ⟨hst, hout⟩⟩
            · exact Or.inr ⟨old, new, rfl, Or.inr ⟨hst, _, hout, rfl⟩⟩
          · rw [if_neg hu] at h
            rcases add_context_docs_cases _ _ _ _ _ _ _ _ _ _ h with
              h1 | ⟨new, _, hst, hout⟩ | ⟨new, _, hst, hout⟩
            · exact Or.inl ⟨h1.1, 500, h1.2⟩
            · exact Or.inr ⟨old, new, rfl, Or.inl ⟨hst, hout⟩⟩
            · exact Or.inr ⟨old, new, rfl, Or.inr ⟨hst, _, hout, rfl⟩⟩

theorem add_context_file_cases (B : Backend) (st : ServerState)
    (session_id filename : String) (st' : ServerState)
    (out : Except Nat AddContextResponse)
    (h : add_context_file B st session_id filename = (st', out)) :
    (st' = st ∧ ∃ c, out = Except.error c) ∨
    (∃ old new, st.session_documents session_id = some old ∧
      ((st' = { st with
                  session_documents :=
                    upd st.session_documents session_id (old ++ new) } ∧
        out = Except.error 500) ∨
       (st' = { qa_chains := upd st.qa_chains session_id (old ++ new)
                document_summaries := upd st.document_summaries session_id
                  (generate_summary B.llm_invoke (old ++ new) "mixed")
                session_documents :=
                  upd st.session_documents session_id (old ++ new) } ∧
        ∃ r, out = Except.ok r ∧
          r.summary = generate_summary B.llm_invoke (old ++ new) "mixed"))) := by
  simp only [add_context_file] at h
  by_cases hs : session_id = ""
  · rw [if_pos hs] at h
    injection h with h1 h2
    exact Or.inl ⟨h1.symm, 404, h2.symm⟩
  · rw [if_neg hs] at h
    cases hsd : st.session_documents session_id with
    | none =>
        simp only [hsd] at h
        injection h with h1 h2
        exact Or.inl ⟨h1.symm, 404, h2.symm⟩
    | some old =>
        simp only [hsd] at h
        by_cases hf : filename = ""
        · rw [if_pos hf] at h
          injection h with h1 h2
          exact Or.inl ⟨h1.symm, 400, h2.symm⟩
        · rw [if_neg hf] at h
          by_cases ha : allowed_file filename = false
          · rw [if_pos ha] at h
            injection h with h1 h2
            exact Or.inl ⟨h1.symm, 400, h2.symm⟩
          · rw [if_neg ha] at h
            rcases add_context_docs_cases _ _ _ _ _ _ _ _ _ _ h with
              h1 | ⟨new, _, hst, hout⟩ | ⟨new, _, hst, hout⟩
            · exact Or.inl ⟨h1.1, 500, h1.2⟩
            · exact Or.inr ⟨old, new, rfl, Or.inl ⟨hst, hout⟩⟩
            · exact Or.inr ⟨old, new, rfl, Or.inr ⟨hst, _, hout, rfl⟩⟩

theorem upload_store_cases (B : Backend) (st : ServerState)
    (session_id : String) (loaded : Except String (List Document))
    (input_type : String) (st' : ServerState)
    (out : Except Nat UploadResponse)
    (h : upload_store B st session_id loaded input_type = (st', out)) :
    (st' = st ∧ out = Except.error 500) ∨
    (∃ docs, loaded = Except.ok docs ∧
      st' = { qa_chains := upd st.qa_chains session_id docs
              document_summaries := upd st.document_summaries session_id
                (generate_summary B.llm_invoke docs input_type)
              session_documents := upd st.session_documents session_id docs } ∧
      out = Except.ok
        { session_id := session_id
          summary := generate_summary B.llm_invoke docs input_type
          content_type := input_type }) := by
  cases loaded with
  | error e =>
      simp only [upload_store] at h
      injection h with h1 h2
      exact Or.inl ⟨h1.symm, h2.symm⟩
  | ok docs =>
      simp only [upload_store] at h
      cases hb : B.build_qa_chain docs with
      | error eb =>
          rw [hb] at h
          injection h with h1 h2
          exact Or.inl ⟨h1.symm, h2.symm⟩
      | ok u =>
          cases u
          rw [hb] at h
          injection h with h1 h2
          exact Or.inr ⟨docs, rfl, h1.symm, h2.symm⟩

theorem upload_file_cases (B : Backend) (st : ServerState)
    (session_id filename : String) (st' : ServerState)
    (out : Except Nat UploadResponse)
    (h : upload_file B st session_id filename = (st', out)) :
    (st' = st ∧ ∃ c, out = Except.error c) ∨
    (∃ docs summary,
      st' = { qa_chains := upd st.qa_chains session_id docs
              document_summaries := upd st.document_summaries session_id summary
              session_documents := upd st.session_documents session_id docs } ∧
      ∃ r, out = Except.ok r) := by
  simp only [upload_file] at h
  by_cases hf : filename = ""
  · rw [if_pos hf] at h
    injection h with h1 h2
    exact Or.inl ⟨h1.symm, 400, h2.symm⟩
  · rw [if_neg hf] at h
    by_cases ha : allowed_file filename = false
    · rw [if_pos ha] at h
      injection h with h1 h2
      exact Or.inl ⟨h1.symm, 400, h2.symm⟩
    · rw [if_neg ha] at h
      rcases upload_store_cases _ _ _ _ _ _ _ h with
        ⟨hst, hout⟩ | ⟨docs, _, hst, hout⟩
      · exact Or.inl ⟨hst, 500, hout⟩
      · exact Or.inr ⟨docs, _, hst, _, hout⟩

theorem upload_content_cases (B : Backend) (st : ServerState)
    (session_id : String) (url text : Option String) (st' : ServerState)
    (out : Except Nat UploadResponse)
    (h : upload_content B st session_id url text = (st', out)) :
    (st' = st ∧ ∃ c, out = Except.error c) ∨
    (∃ docs summary,
      st' = { qa_chains := upd st.qa_chains session_id docs
              document_summaries := upd st.document_summaries session_id summary
              session_documents := upd st.session_documents session_id docs } ∧
      ∃ r, out = Except.ok r) := by
  simp only [upload_content] at h
  by_cases h0 : url.getD "" = "" ∧ text.getD "" = ""
  · rw [if_pos h0] at h
    injection h with h1 h2
    exact Or.inl ⟨h1.symm, 400, h2.symm⟩
  · rw [if_neg h0] at h
    by_cases hu : url.getD "" ≠ ""
    · rw [if_pos hu] at h
      rcases upload_store_cases _ _ _ _ _ _ _ h with
        ⟨hst, hout⟩ | ⟨docs, _, hst, hout⟩
      · exact Or.inl ⟨hst, 500, hout⟩
      · exact Or.inr ⟨docs, _, hst, _, hout⟩
    · rw [if_neg hu] at h
      rcases upload_store_cases _ _ _ _ _ _ _ h with
        ⟨hst, hout⟩ | ⟨docs, _, hst, hout⟩
      · exact Or.inl ⟨hst, 500, hout⟩
      · exact Or.inr ⟨docs, _, hst, _, hout⟩

theorem delete_session_cases (st : ServerState) (session_id : String)
    (st' : ServerState) (out : Except Nat String)
    (h : delete_session st session_id = (st', out)) :
    (st' = st ∧ out = Except.error 404) ∨
    (st' = { qa_chains := rm st.qa_chains session_id
             document_summaries := rm st.document_summaries session_id
             session_documents := rm st.session_documents session_id } ∧
     ∃ m, out = Except.ok m) := by
  simp only [delete_session] at h
  cases hsd : st.session_documents session_id with
  | none =>
      simp only [hsd] at h
      injection h with h1 h2
      exact Or.inl ⟨h1.symm, h2.symm⟩
  | some docs =>
      simp only [hsd] at h
      injection h with h1 h2
      exact Or.inr ⟨h1.symm, _, h2.symm⟩

/-- Counterexample to C2 as stated: starting from a state whose only
session `"s"` has a fresh index, an add-context request whose
chunk/embed/index rebuild fails leaves `"s"` with the new document
appended to its stored list while its stored chain was built from the
old, shorter list — an index built from a different document list than
the one stored. -/
theorem c2_counterexample :
    index_fresh st0 ∧
    ¬ index_fresh (add_context_json fail_build_backend st0 "s" none (some "beta")).1 := by
  refine ⟨fun sid => rfl, fun h => absurd (h "s") ?_⟩
  decide

/-- C2 (amended): a successful add-context operation (file or JSON)
leaves every session's stored index built from exactly its current
document list; but when the operation fails, the stored chains are all
unchanged while the target session's document list may already contain
the appended documents — the failing-rebuild path leaves a stale index. -/
theorem c2_amended_index_freshness (B : Backend) (st : ServerState)
    (session_id filename : String) (url text : Option String)
    (hfresh : index_fresh st) :
    (∀ st' r, add_context_json B st session_id url text = (st', Except.ok r) →
      index_fresh st') ∧
    (∀ st' r, add_context_file B st session_id filename = (st', Except.ok r) →
      index_fresh st') ∧
    (∀ st' c, add_context_json B st session_id url text = (st', Except.error c) →
      st'.qa_chains = st.qa_chains ∧
      (st'.session_documents = st.session_documents ∨
       ∃ old new, st.session_documents session_id = some old ∧
         st'.session_documents = upd st.session_documents session_id (old ++ new))) ∧
    (∀ st' c, add_context_file B st session_id filename = (st', Except.error c) →
      st'.qa_chains = st.qa_chains ∧
      (st'.session_documents = st.session_documents ∨
       ∃ old new, st.session_documents session_id = some old ∧
         st'.session_documents = upd st.session_documents session_id (old ++ new))) := by
  refine ⟨?_, ?_, ?_, ?_⟩
  · intro st' r h
    rcases add_context_json_cases _ _ _ _ _ _ _ h with
      ⟨_, c, hc⟩ | ⟨old, new, hsd, ⟨_, hc⟩ | ⟨hst, _, hc, _⟩⟩
    · simp at hc
    · simp at hc
    · subst hst
      intro sid
      by_cases hz : sid = session_id
      · simp [upd, hz]
      · simp only [upd, if_neg hz]
        exact hfresh sid
  · intro st' r h
    rcases add_context_file_cases _ _ _ _ _ _ h with
      ⟨_, c, hc⟩ | ⟨old, new, hsd, ⟨_, hc⟩ | ⟨hst, _, hc, _⟩⟩
    · simp at hc
    · simp at hc
    · subst hst
      intro sid
      by_cases hz : sid = session_id
      · simp [upd, hz]
      · simp only [upd, if_neg hz]
        exact hfresh sid
  · intro st' c h
    rcases add_context_json_cases _ _ _ _ _ _ _ h with
      ⟨hst, _, _⟩ | ⟨old, new, hsd, ⟨hst, _⟩ | ⟨_, _, hc, _⟩⟩
    · exact ⟨by rw [hst], Or.inl (by rw [hst])⟩
    · exact ⟨by rw [hst], Or.inr ⟨old, new, hsd, by rw [hst]⟩⟩
    · simp at hc
  · intro st' c h
    rcases add_context_file_cases _ _ _ _ _ _ h with
      ⟨hst, _, _⟩ | ⟨old, new, hsd, ⟨hst, _⟩ | ⟨_, _, hc, _⟩⟩
    · exact ⟨by rw [hst], Or.inl (by rw [hst])⟩
    · exact ⟨by rw [hst], Or.inr ⟨old, new, hsd, by rw [hst]⟩⟩
    · simp at hc

/-- Witness for C2 (amended): a successful extension of `st0` leaves a
fresh index. -/
theorem c2_witness :
    index_fresh (add_context_json ok_backend st0 "s" none (some "beta")).1 := by
  have h := (c2_amended_index_freshness ok_backend st0 "s" "f.pdf" none (some "beta")
    (fun sid => rfl)).1
  exact h _ _ rfl

/-- C8: an upload whose filename's lowercased part after the last dot is
not an allowed extension is rejected with a 400 validation failure: the
state is returned unchanged, and the result is the same for every
backend — so no loader, embedding, or LLM call is made. -/
theorem c8_upload_rejects_bad_extension (B : Backend) (st : ServerState)
    (session_id filename : String)
    (hext : file_ext filename ∉ ALLOWED_EXTENSIONS) :
    upload_file B st session_id filename = (st, Except.error 400) := by
  have hall : allowed_file filename = false := by
    unfold allowed_file
    cases hc : ALLOWED_EXTENSIONS.contains (file_ext filename) with
    | false => simp
    | true => exact absurd (List.elem_iff.1 hc) hext
  by_cases hf : filename = ""
  · subst hf
    rfl
  · simp only [upload_file]
    rw [if_neg hf, if_pos hall]

/-- Witness for C8 at the spec's example of a disallowed extension. -/
theorem c8_witness :
    (file_ext "evil.exe" ∉ ALLOWED_EXTENSIONS) ∧
    upload_file stub_backend st0 "sid" "evil.exe" = (st0, Except.error 400) :=
  ⟨by decide,
   c8_upload_rejects_bad_extension stub_backend st0 "sid" "evil.exe" (by decide)⟩

/-- C6: every successful add-context operation (JSON or file) on a
session holding `old` documents loads some list `new` of documents and
leaves the session with exactly `old ++ new`: the session-info operation
then reports a document count of exactly `old.length + new.length`
(before the call it reported `old.length`), the stored summary is
regenerated over the full accumulated list tagged `"mixed"`, and the
stored chain is rebuilt from the full accumulated list. -/
theorem c6_extend_updates_all (B : Backend) (st : ServerState)
    (session_id filename : String) (url text : Option String)
    (old : List Document)
    (hold : st.session_documents session_id = some old) :
    (∀ info, get_session_info st session_id = Except.ok info →
      info.document_count = old.length) ∧
    (∀ st' r, add_context_json B st session_id url text = (st', Except.ok r) →
      ∃ new,
        st'.session_documents session_id = some (old ++ new) ∧
        st'.qa_chains session_id = some (old ++ new) ∧
        st'.document_summaries session_id =
          some (generate_summary B.llm_invoke (old ++ new) "mixed") ∧
        r.summary = generate_summary B.llm_invoke (old ++ new) "mixed" ∧
        (∀ info, get_session_info st' session_id = Except.ok info →
          info.document_count = old.length + new.length ∧
          info.summary = generate_summary B.llm_invoke (old ++ new) "mixed" ∧
          info.has_qa_chain = true)) ∧
    (∀ st' r, add_context_file B st session_id filename = (st', Except.ok r) →
      ∃ new,
        st'.session_documents session_id = some (old ++ new) ∧
        st'.qa_chains session_id = some (old ++ new) ∧
        st'.document_summaries session_id =
          some (generate_summary B.llm_invoke (old ++ new) "mixed") ∧
        r.summary = generate_summary B.llm_invoke (old ++ new) "mixed" ∧
        (∀ info, get_session_info st' session_id = Except.ok info →
          info.document_count = old.length + new.length ∧
          info.summary = generate_summary B.llm_invoke (old ++ new) "mixed" ∧
          info.has_qa_chain = true)) := by
  refine ⟨?_, ?_, ?_⟩
  · intro info hinfo
    simp only [get_session_info, hold] at hinfo
    injection hinfo with hinfo
    rw [← hinfo]
  · intro st' r h
    rcases add_context_json_cases _ _ _ _ _ _ _ h with
      ⟨_, c, hc⟩ | ⟨old2, new, hsd, ⟨_, hc⟩ | ⟨hst, r2, hc, hsum⟩⟩
    · simp at hc
    · simp at hc
    · have hoo : old2 = old := by
        rw [hold] at hsd
        injection hsd with hv
        exact hv.symm
      subst hoo
      injection hc with hc
      subst hc
      subst hst
      refine ⟨new, by simp [upd], by simp [upd], by simp [upd], hsum, ?_⟩
      intro info hinfo
      simp only [get_session_info, upd, if_pos rfl] at hinfo
      injection hinfo with hinfo
      rw [← hinfo]
      simp
  · intro st' r h
    rcases add_context_file_cases _ _ _ _ _ _ h with
      ⟨_, c, hc⟩ | ⟨old2, new, hsd, ⟨_, hc⟩ | ⟨hst, r2, hc, hsum⟩⟩
    · simp at hc
    · simp at hc
    · have hoo : old2 = old := by
        rw [hold] at hsd
        injection hsd with hv
        exact hv.symm
      subst hoo
      injection hc with hc
      subst hc
      subst hst
      refine ⟨new, by simp [upd], by simp [upd], by simp [upd], hsum, ?_⟩
      intro info hinfo
      simp only [get_session_info, upd, if_pos rfl] at hinfo
      injection hinfo with hinfo
      rw [← hinfo]
      simp

/-- Witness for C6: extending `st0` (one stored document) with one text
document doubles nothing and adds exactly one: the reported count goes
from 1 to 2. -/
theorem c6_witness :
    ∃ new,
      (add_context_json ok_backend st0 "s" none (some "beta")).1.session_documents "s" =
        some ([d0] ++ new) ∧
      (add_context_json ok_backend st0 "s" none (some "beta")).1.qa_chains "s" =
        some ([d0] ++ new) ∧
      (add_context_json ok_backend st0 "s" none (some "beta")).1.document_summaries "s" =
        some (generate_summary ok_backend.llm_invoke ([d0] ++ new) "mixed") ∧
      (∀ info,
        get_session_info (add_context_json ok_backend st0 "s" none (some "beta")).1 "s" =
          Except.ok info →
        info.document_count = [d0].length + new.length ∧
        info.summary = generate_summary ok_backend.llm_invoke ([d0] ++ new) "mixed" ∧
        info.has_qa_chain = true) := by
  have h := ((c6_extend_updates_all ok_backend st0 "s" "f.pdf" none (some "beta")
      [d0] rfl).2.1) _ _ rfl
  obtain ⟨new, h1, h2, h3, h4, h5⟩ := h
  exact ⟨new, h1, h2, h3, h5⟩

theorem domains_eq_store3 (st : ServerState) (hd : domains_eq st)
    (sid : String) (docs : List Document) (summary : String) :
    domains_eq { qa_chains := upd st.qa_chains sid docs
                 document_summaries := upd st.document_summaries sid summary
                 session_documents := upd st.session_documents sid docs } := by
  intro s
  by_cases h : s = sid
  · simp [upd, h]
  · simpa [upd, h] using hd s

theorem domains_eq_rm3 (st : ServerState) (hd : domains_eq st)
    (sid : String) :
    domains_eq { qa_chains := rm st.qa_chains sid
                 document_summaries := rm st.document_summaries sid
                 session_documents := rm st.session_documents sid } := by
  intro s
  by_cases h : s = sid
  · simp [rm, h]
  · simpa [rm, h] using hd s

theorem domains_eq_extend (st : ServerState) (hd : domains_eq st)
    (sid : String) (old docs : List Document)
    (hold : st.session_documents sid = some old) :
    domains_eq
      { st with session_documents := upd st.session_documents sid docs } := by
  intro s
  by_cases h : s = sid
  · subst h
    have hs := hd s
    rw [hold] at hs
    simp only [Option.isSome_some] at hs
    simp [upd, hs.1, hs.2]
  · simpa [upd, h] using hd s

/-- C10: the three session dictionaries always hold exactly the same key
set — every state-changing endpoint either installs a session in all
three, removes it from all three, or leaves the key set unchanged — and
consequently every stored session is reported with `has_qa_chain = true`
by the info endpoint and `has_summary = true` by the list endpoint. -/
theorem c10_domains_preserved (st : ServerState) (hd : domains_eq st) :
    (∀ B session_id filename,
      domains_eq (upload_file B st session_id filename).1) ∧
    (∀ B session_id url text,
      domains_eq (upload_content B st session_id url text).1) ∧
    (∀ B session_id filename,
      domains_eq (add_context_file B st session_id filename).1) ∧
    (∀ B session_id url text,
      domains_eq (add_context_json B st session_id url text).1) ∧
    (∀ session_id, domains_eq (delete_session st session_id).1) ∧
    (∀ session_id docs, st.session_documents session_id = some docs →
      (∃ info, get_session_info st session_id = Except.ok info ∧
        info.has_qa_chain = true) ∧
      (∃ entry, list_entry st session_id = some entry ∧
        entry.has_summary = true)) := by
  refine ⟨?_, ?_, ?_, ?_, ?_, ?_⟩
  · intro B sid fn
    cases hu : upload_file B st sid fn with
    | mk st' out =>
        rcases upload_file_cases _ _ _ _ _ _ hu with
          ⟨hst, _⟩ | ⟨docs, summary, hst, _⟩
        · subst hst
          exact hd
        · subst hst
          exact domains_eq_store3 st hd sid docs summary
  · intro B sid url text
    cases hu : upload_content B st sid url text with
    | mk st' out =>
        rcases upload_content_cases _ _ _ _ _ _ _ hu with
          ⟨hst, _⟩ | ⟨docs, summary, hst, _⟩
        · subst hst
          exact hd
        · subst hst
          exact domains_eq_store3 st hd sid docs summary
  · intro B sid fn
    cases hu : add_context_file B st sid fn with
    | mk st' out =>
        rcases add_context_file_cases _ _ _ _ _ _ hu with
          ⟨hst, _⟩ | ⟨old, new, hsd, ⟨hst, _⟩ | ⟨hst, _⟩⟩
        · subst hst
          exact hd
        · subst hst
          exact domains_eq_extend st hd sid old (old ++ new) hsd
        · subst hst
          exact domains_eq_store3 st hd sid (old ++ new) _
  · intro B sid url text
    cases hu : add_context_json B st sid url text with
    | mk st' out =>
        rcases add_context_json_cases _ _ _ _ _ _ _ hu with
          ⟨hst, _⟩ | ⟨old, new, hsd, ⟨hst, _⟩ | ⟨hst, _⟩⟩
        · subst hst
          exact hd
        · subst hst
          exact domains_eq_extend st hd sid old (old ++ new) hsd
        · subst hst
          exact domains_eq_store3 st hd sid (old ++ new) _
  · intro sid
    cases hu : delete_session st sid with
    | mk st' out =>
        rcases delete_session_cases _ _ _ _ hu with ⟨hst, _⟩ | ⟨hst, _⟩
        · subst hst
          exact hd
        · subst hst
          exact domains_eq_rm3 st hd sid
  · intro sid docs hold
    have h1 := (hd sid).1
    have h2 := (hd sid).2
    rw [hold] at h1 h2
    simp only [Option.isSome_some] at h1 h2
    constructor
    · refine ⟨{ session_id := sid
                document_count := docs.length
                total_characters := (docs.map (fun d => d.page_content.length)).sum
                summary := (st.document_summaries sid).getD "No summary available"
                has_qa_chain := (st.qa_chains sid).isSome }, ?_, h1⟩
      simp [get_session_info, hold]
    · refine ⟨{ session_id := sid
                document_count := docs.length
                has_summary := (st.document_summaries sid).isSome }, ?_, h2⟩
      simp [list_entry, hold]

/-- Witness for C10: the invariant holds on the one-session state `st0`,
is preserved by deleting `"s"`, and the stored session is reported with
`has_qa_chain` and `has_summary` true. -/
theorem c10_witness :
    domains_eq (delete_session st0 "s").1 ∧
    (∃ info, get_session_info st0 "s" = Except.ok info ∧
      info.has_qa_chain = true) ∧
    (∃ entry, list_entry st0 "s" = some entry ∧
      entry.has_summary = true) := by
  have hd : domains_eq st0 := by
    intro sid
    by_cases h : sid = "s" <;> simp [st0, h]
  exact ⟨(c10_domains_preserved st0 hd).2.2.2.2.1 "s",
    (c10_domains_preserved st0 hd).2.2.2.2.2 "s" [d0] rfl⟩

end RAG
